import Mathlib

/-!
Shallow embedding of the lead-generation pipeline in
src/ai_lead_generation_agent_ollama.py, and proofs of the spec claims
about it.

Modelling conventions:
- Python dictionaries holding interaction records are loosely typed but,
  per the schema sent to the extraction service, each field that is
  present has a fixed type.  An interaction mapping is therefore a record
  of Option-typed fields, where `none` means "key absent from the dict".
- Python exceptions are modelled with `Except Unit`: an `Except.error ()`
  stands for a raised exception of any kind.
- Streamlit narration calls (st.write / st.error) are display-only side
  effects and are modelled as non-failing no-ops.
- Machine integers do not overflow in this program (counts and upvotes),
  so they are modelled as Nat / Int directly.
-/

/-- One interaction mapping as produced by the extraction service or by
fallback synthesis.  Field names and types follow the
QuoraUserInteractionSchema pydantic model in the source; `none` models a
key that is absent from the loosely-typed dict. -/
structure Interaction where
  username : Option String
  bio : Option String
  post_type : Option String
  timestamp : Option String
  upvotes : Option Int
  links : Option (List String)
deriving DecidableEq

/-- The outcome of processing one candidate URL, as appended to
user_info_list by extract_user_info_from_urls: a dict with keys
"website_url" and "user_info". -/
structure PageResult where
  website_url : String
  user_info : List Interaction
deriving DecidableEq

/-- A Python dict as probed by extract_user_info_from_urls: we track the
"interactions" key (absent when `interactions = none`) and the number of
other keys, which only matters for dict truthiness. -/
structure PyDict where
  interactions : Option (List Interaction)
  extraKeys : Nat
deriving DecidableEq

/-- Python truthiness of a dict: non-empty iff it has at least one key. -/
def PyDict.truthy (d : PyDict) : Bool :=
  d.interactions.isSome || d.extraKeys != 0

/-- The empty Python dict. -/
def emptyDict : PyDict := ⟨none, 0⟩

/-- A Python value as it can appear in the "data" attribute of the
extraction response: a dict, a list, or any other value (tracked only by
its truthiness). -/
inductive PyVal where
  | dict (d : PyDict)
  | list (xs : List PyVal)
  | other (truthy : Bool)

/-- Python truthiness of a value: dicts and lists are truthy iff
non-empty; other values carry their truthiness. -/
def PyVal.truthy : PyVal → Bool
  | .dict d => d.truthy
  | .list xs => !xs.isEmpty
  | .other t => t

/-- The extraction-service response object.  `data = some v` models
hasattr(response, "data") with response.data = v; `hasDunderDict` models
hasattr(response, "__dict__") with `dunderDict` its content; `hasItems`
models hasattr(response, "items") with `itemsDict` the result of
dict(response). -/
structure Response where
  data : Option PyVal
  hasDunderDict : Bool
  dunderDict : PyDict
  hasItems : Bool
  itemsDict : PyDict

/-- The elif / else chain of the response handling (source lines 72-77):
response.__dict__ when the response has one, else dict(response) when it
is dict-like, else the empty dict. -/
def attr_or_mapping (response : Response) : PyDict :=
  if response.hasDunderDict then response.dunderDict
  else if response.hasItems then response.itemsDict
  else emptyDict

/-- The extracted_data computation of source lines 64-77.  When the
response has a truthy "data" attribute: a non-empty list is unwrapped to
its first element (coerced to the empty dict when that element is not a
dict), a dict is used as-is, and anything else is coerced to the empty
dict.  Otherwise the elif / else chain applies.  The `.list []` case is
unreachable (an empty list is falsy) and follows the Python else branch,
which coerces the non-dict value to the empty dict. -/
def get_extracted_data (response : Response) : PyDict :=
  match response.data with
  | some d =>
    if d.truthy then
      match d with
      | .list (x :: _) =>
        match x with
        | .dict dd => dd
        | _ => emptyDict
      | .list [] => emptyDict
      | .dict dd => dd
      | .other _ => emptyDict
    else attr_or_mapping response
  | none => attr_or_mapping response

/-- Coercion of a Python value to a mapping as the source performs it:
dicts pass through, anything else becomes the empty dict. -/
def as_mapping : PyVal → PyDict
  | .dict d => d
  | _ => emptyDict

/-- One level of first-element unwrapping: a non-empty list is replaced
by its first element, anything else is left alone. -/
def unwrap_first : PyVal → PyVal
  | .list (x :: _) => x
  | v => v

/-- Strategy (a), modelled from the claim wording: applicable when a
named "data" field is present and non-empty (truthy); its result is that
data with one level of first-element unwrapping when it is a list,
coerced to a mapping. -/
def strategy_data (response : Response) : Option PyDict :=
  match response.data with
  | some d => if d.truthy then some (as_mapping (unwrap_first d)) else none
  | none => none

/-- Strategy (b), modelled from the claim wording: treat the whole
response as a generic attribute bag when it has one. -/
def strategy_attr_bag (response : Response) : Option PyDict :=
  if response.hasDunderDict then some response.dunderDict else none

/-- Strategy (c), modelled from the claim wording: treat the response as
a mapping when it is dict-like. -/
def strategy_mapping (response : Response) : Option PyDict :=
  if response.hasItems then some response.itemsDict else none

/-- The strategy chain of the claim: try (a), then (b), then (c); the
first applicable strategy determines the extracted data, and the empty
dict results when none applies. -/
def spec_unwrap (response : Response) : PyDict :=
  (((strategy_data response).orElse fun _ => strategy_attr_bag response).orElse
      fun _ => strategy_mapping response).getD emptyDict

/-- The characters of the trailing path segment of a URL.  This is the
Python expression url.split("/")[-1] of source line 124: the last element
of a single-character split equals the suffix of the string after its
last "/" occurrence (the whole string when "/" does not occur), computed
here as the reversed longest "/"-free suffix of the reversed characters. -/
def trailing_segment_chars (url : String) : List Char :=
  (url.data.reverse.takeWhile (fun c => c != '/')).reverse

/-- Fallback synthesis, source lines 120-131: exactly one interaction
dict whose username is "User from " plus the first 15 characters of the
trailing path segment of the URL, with fixed values for every other
field.  All six keys are present in the synthesized dict. -/
def create_fallback_data (url : String) : List Interaction :=
  [{ username := some ("User from " ++ String.mk ((trailing_segment_chars url).take 15)),
     bio := some "Bio not available - extraction failed",
     post_type := some "question",
     timestamp := some "2024-01-01",
     upvotes := some 0,
     links := some [] }]

/-- The fixed extraction instruction of source lines 57. -/
def extraction_prompt : String :=
  "Extract all user information including username, bio, post type (question/answer), timestamp, upvotes, and any links from Quora posts. Focus on identifying potential leads who are asking questions or providing answers related to the topic."

/-- The constructed Firecrawl client, abstracted by its extract method:
given the url list and the instruction text (the fixed JSON schema
argument is a constant and is left implicit), it either raises or
returns a response object. -/
structure FirecrawlApp where
  extract : List String → String → Except Unit Response

/-- The body of the per-URL loop iteration of source lines 50-107, whose
inner try/except makes it total: any exception from the extract call is
caught and answered with fallback data, and a response whose extracted
data lacks a non-empty "interactions" entry also falls back.  The
condition mirrors the source test
  if extracted_data and "interactions" in extracted_data
followed by the truthiness test on the interactions list. -/
def process_url (firecrawl_app : FirecrawlApp) (url : String) : PageResult :=
  match firecrawl_app.extract [url] extraction_prompt with
  | Except.error _ =>
    { website_url := url, user_info := create_fallback_data url }
  | Except.ok response =>
    let extracted_data := get_extracted_data response
    if extracted_data.truthy && extracted_data.interactions.isSome then
      let interactions := extracted_data.interactions.getD []
      if !interactions.isEmpty then
        { website_url := url, user_info := interactions }
      else
        { website_url := url, user_info := create_fallback_data url }
    else
      { website_url := url, user_info := create_fallback_data url }

/-- extract_user_info_from_urls, source lines 45-118.  The client
construction FirecrawlApp(api_key=...) on line 47 sits OUTSIDE the try
block that starts on line 49, so a constructor exception propagates out
of the function; `firecrawl_app_ctor` models the outcome of that
construction.  Once the client exists, each URL is processed by the loop
whose body is guarded by its own inner try/except, so no exception
escapes an iteration (narration writes are modelled as non-failing) and
the outer except branch, which would append fallback records for all
URLs, is unreachable in this model. -/
def extract_user_info_from_urls (firecrawl_app_ctor : Except Unit FirecrawlApp)
    (urls : List String) : Except Unit (List PageResult) :=
  match firecrawl_app_ctor with
  | Except.error e => Except.error e
  | Except.ok firecrawl_app => Except.ok (urls.map (process_url firecrawl_app))

/-- One search-result item; only its url field is read by the source. -/
structure SearchItem where
  url : String
deriving DecidableEq

/-- The parsed JSON body of the search response: `success` models a
present-and-truthy "success" key (data.get("success")), `data` the value
of the "data" key with the source default [] (data.get("data", [])). -/
structure SearchBody where
  success : Bool
  data : List SearchItem
deriving DecidableEq

/-- The HTTP search response: status code plus parsed body. -/
structure SearchResponse where
  status_code : Nat
  body : SearchBody
deriving DecidableEq

/-- The JSON payload of the search request, source lines 30-36. -/
structure SearchRequest where
  query : String
  limit : Nat
  lang : String
  location : String
  timeout : Nat
deriving DecidableEq

/-- The payload built by search_for_urls, source lines 29-36. -/
def search_payload (company_description : String) (num_links : Nat) : SearchRequest :=
  { query := "quora websites where people are looking for " ++ company_description ++ " services",
    limit := num_links,
    lang := "en",
    location := "United States",
    timeout := 60000 }

/-- search_for_urls, source lines 23-43.  The search service is modelled
as a function of the bearer token (sent in the headers) and the JSON
payload.  On a 200 status with a truthy "success" key the url field of
every result item is returned in service order; every other outcome
yields the empty list.  The function is total: no branch raises. -/
def search_for_urls (service : String → SearchRequest → SearchResponse)
    (company_description firecrawl_api_key : String) (num_links : Nat) : List String :=
  let response := service firecrawl_api_key (search_payload company_description num_links)
  if response.status_code = 200 then
    let data := response.body
    if data.success then data.data.map SearchItem.url
    else []
  else []

/-- One flattened row, source lines 141-149.  Every cell is a total
String or Int value: the row type has no optional or null cell by
construction. -/
structure FlattenedRow where
  website_url : String
  username : String
  bio : String
  post_type : String
  timestamp : String
  upvotes : Int
  links : String
deriving DecidableEq

/-- The per-interaction row of source lines 141-149: dict.get with a
default for every field, and ", ".join for the links sequence. -/
def flattened_interaction (website_url : String) (interaction : Interaction) : FlattenedRow :=
  { website_url := website_url,
    username := interaction.username.getD "",
    bio := interaction.bio.getD "",
    post_type := interaction.post_type.getD "",
    timestamp := interaction.timestamp.getD "",
    upvotes := interaction.upvotes.getD 0,
    links := String.intercalate ", " (interaction.links.getD []) }

/-- format_user_info_to_flattened_json, source lines 133-152: the nested
for loops append, page by page and interaction by interaction, one row
per interaction to the initially empty flattened_data accumulator. -/
def format_user_info_to_flattened_json (user_info_list : List PageResult) : List FlattenedRow :=
  user_info_list.foldl
    (fun flattened_data info =>
      flattened_data ++ info.user_info.map (flattened_interaction info.website_url))
    []

/-! Helper lemmas shared by several claim proofs. -/

/-- The URL recorded by process_url is always the input URL. -/
theorem process_url_website_url (firecrawl_app : FirecrawlApp) (url : String) :
    (process_url firecrawl_app url).website_url = url := by
  cases h : firecrawl_app.extract [url] extraction_prompt with
  | error e => simp [process_url, h]
  | ok response =>
    simp only [process_url, h]
    split_ifs <;> rfl

/-- The interactions recorded by process_url are never empty: either the
guard on the real interactions list held, or the synthesized fallback
singleton is used. -/
theorem process_url_user_info_ne_nil (firecrawl_app : FirecrawlApp) (url : String) :
    (process_url firecrawl_app url).user_info ≠ [] := by
  cases h : firecrawl_app.extract [url] extraction_prompt with
  | error e => simp [process_url, h, create_fallback_data]
  | ok response =>
    simp only [process_url, h]
    split_ifs with h1 h2
    · simpa [List.isEmpty_iff] using h2
    · simp [create_fallback_data]
    · simp [create_fallback_data]

/-- Folding the row-appending loop from any accumulator prepends that
accumulator to the rows produced from the empty accumulator. -/
theorem format_foldl_init (acc : List FlattenedRow) (l : List PageResult) :
    l.foldl (fun flattened_data info =>
        flattened_data ++ info.user_info.map (flattened_interaction info.website_url)) acc
      = acc ++ l.foldl (fun flattened_data info =>
        flattened_data ++ info.user_info.map (flattened_interaction info.website_url)) [] := by
  induction l generalizing acc with
  | nil => simp
  | cons p ps ih =>
    simp only [List.foldl_cons]
    rw [ih (acc ++ _), ih (List.nil ++ _)]
    simp

/-- Unfolding of the Normalizer on a head page: its rows come first, in
within-page order, followed by the rows of the remaining pages. -/
theorem format_cons (p : PageResult) (ps : List PageResult) :
    format_user_info_to_flattened_json (p :: ps)
      = p.user_info.map (flattened_interaction p.website_url)
          ++ format_user_info_to_flattened_json ps := by
  simp only [format_user_info_to_flattened_json, List.foldl_cons]
  rw [format_foldl_init]
  simp

/-! Claim theorems. -/

/-- C2 (code evaluation at the failing input): when the Firecrawl client
construction fails, extract_user_info_from_urls propagates the exception
instead of returning fallback PageResults, because the constructor call
on source line 47 sits outside the try block that starts on line 49. -/
theorem extractor_ctor_failure_propagates :
    extract_user_info_from_urls (Except.error ())
        ["https://quora.com/topic/AI-video-editing"]
      = Except.error () := rfl

/-- C5 counterexample: on the URL of the claimed scenario the synthesized
username is not "User from AI-video-editi"; the trailing segment
"AI-video-editing" has 16 characters, so its 15-character truncation is
"AI-video-editin". -/
theorem fallback_example_username_counterexample :
    ¬ (create_fallback_data "https://quora.com/topic/AI-video-editing").map Interaction.username
        = [some "User from AI-video-editi"] := by decide

/-- C5 (amended): the fallback is exactly one record with username
"User from " plus the 15-character truncation of the trailing path
segment, the fixed sentinel bio, post_type "question", the fixed
placeholder timestamp, upvotes 0 and empty links; the username never
exceeds 25 characters; and the scenario URL yields the username
"User from AI-video-editin". -/
theorem fallback_record_shape (url : String) :
    create_fallback_data url
        = [{ username := some ("User from " ++ String.mk ((trailing_segment_chars url).take 15)),
             bio := some "Bio not available - extraction failed",
             post_type := some "question",
             timestamp := some "2024-01-01",
             upvotes := some 0,
             links := some [] }] ∧
    ("User from " ++ String.mk ((trailing_segment_chars url).take 15)).length ≤ 25 ∧
    (create_fallback_data "https://quora.com/topic/AI-video-editing").map Interaction.username
        = [some "User from AI-video-editin"] := by
  refine ⟨rfl, ?_, by decide⟩
  have h := List.length_take_le 15 (trailing_segment_chars url)
  have h10 : "User from ".length = 10 := rfl
  have hmk : (String.mk ((trailing_segment_chars url).take 15)).length
      = ((trailing_segment_chars url).take 15).length := rfl
  rw [String.length_append, hmk, h10]
  omega

/-- C9: fallback synthesis is deterministic: it is a pure function of
the URL alone (the source function reads nothing but its argument), so
two invocations on the same URL return identical records. -/
theorem fallback_deterministic (u v : String) (h : u = v) :
    create_fallback_data u = create_fallback_data v := by rw [h]

/-- C9 witness: two invocations on the scenario URL agree. -/
theorem fallback_deterministic_witness :
    create_fallback_data "https://quora.com/topic/AI-video-editing"
      = create_fallback_data "https://quora.com/topic/AI-video-editing" :=
  fallback_deterministic _ _ rfl

/-- C10: the trailing segment is the text after the last "/", with no
special handling of edge cases: a URL ending in "/" yields the bare
username "User from ", and a URL containing no "/" at all yields
"User from " plus the first 15 characters of the whole URL. -/
theorem fallback_username_edge_segments (s url : String) (h : '/' ∉ url.data) :
    (create_fallback_data (s ++ "/")).map Interaction.username = [some "User from "] ∧
    (create_fallback_data url).map Interaction.username
      = [some ("User from " ++ String.mk (url.data.take 15))] := by
  constructor
  · have hd : (s ++ "/").data = s.data ++ ['/'] := by rw [String.data_append]
    have h1 : trailing_segment_chars (s ++ "/") = [] := by
      unfold trailing_segment_chars
      rw [hd, List.reverse_append]
      simp
    simp only [create_fallback_data, h1, List.take_nil, List.map_cons, List.map_nil]
    decide
  · have h2 : url.data.reverse.takeWhile (fun c => c != '/') = url.data.reverse := by
      rw [List.takeWhile_eq_self_iff]
      intro x hx
      simp only [bne_iff_ne, ne_eq]
      intro hc
      exact h (by simpa [hc] using List.mem_reverse.1 hx)
    simp [create_fallback_data, trailing_segment_chars, h2]

/-- C10 witness: a URL ending in "/" and a URL with no "/" at all,
evaluated concretely. -/
theorem fallback_username_edge_segments_witness :
    (create_fallback_data ("https://quora.com" ++ "/")).map Interaction.username
        = [some "User from "] ∧
    (create_fallback_data "topic").map Interaction.username
        = [some ("User from " ++ String.mk ("topic".data.take 15))] :=
  fallback_username_edge_segments "https://quora.com" "topic" (by decide)

/-- C1: once the client exists, extract_user_info_from_urls returns, for
any behaviour of the extraction service (including one that raises on
every URL), exactly one PageResult per input URL, in input order, whose
website_url equals that input URL and whose interactions list is
non-empty; every URL is processed independently, so a failure on one URL
never aborts the processing of the subsequent ones. -/
theorem extractor_one_result_per_url (firecrawl_app : FirecrawlApp) (urls : List String) :
    ∃ results, extract_user_info_from_urls (Except.ok firecrawl_app) urls = Except.ok results ∧
      results.map PageResult.website_url = urls ∧
      ∀ r ∈ results, r.user_info ≠ [] := by
  refine ⟨urls.map (process_url firecrawl_app), rfl, ?_, ?_⟩
  · rw [List.map_map]
    have h : PageResult.website_url ∘ process_url firecrawl_app = id := by
      funext u
      exact process_url_website_url firecrawl_app u
    rw [h, List.map_id]
  · intro r hr
    rcases List.mem_map.1 hr with ⟨u, _, rfl⟩
    exact process_url_user_info_ne_nil firecrawl_app u

/-- C1 witness: a client that raises on every URL still yields one
non-empty PageResult per URL in order. -/
theorem extractor_one_result_per_url_witness :
    ∃ results,
      extract_user_info_from_urls
          (Except.ok ⟨fun _ _ => Except.error ()⟩)
          ["https://quora.com/a", "https://quora.com/b"]
        = Except.ok results ∧
      results.map PageResult.website_url = ["https://quora.com/a", "https://quora.com/b"] ∧
      ∀ r ∈ results, r.user_info ≠ [] :=
  extractor_one_result_per_url ⟨fun _ _ => Except.error ()⟩
    ["https://quora.com/a", "https://quora.com/b"]

/-- C6: the Normalizer returns one row per interaction: its row count is
the sum of the interaction counts of the PageResults, and its rows are
the per-page rows concatenated in PageResult order with interactions in
their within-page order, with nothing filtered, sorted or deduplicated. -/
theorem normalizer_row_count_and_order (l : List PageResult) (p : PageResult)
    (ps : List PageResult) :
    (format_user_info_to_flattened_json l).length
        = (l.map fun r => r.user_info.length).sum ∧
    format_user_info_to_flattened_json (p :: ps)
        = p.user_info.map (flattened_interaction p.website_url)
            ++ format_user_info_to_flattened_json ps := by
  refine ⟨?_, format_cons p ps⟩
  induction l with
  | nil => rfl
  | cons q qs ih =>
    rw [format_cons, List.length_append, List.length_map, ih]
    simp

/-- C7: flattening one interaction mapping carries every present field
unchanged (links as a comma-and-space join, the empty sequence becoming
the empty string), defaults an absent upvotes to 0 and absent string
fields to the empty string, and fills every cell of the row with a total
String or Int value, never a null. -/
theorem flatten_field_defaults (website_url : String) (interaction : Interaction) :
    (∀ x, interaction.username = some x →
      (flattened_interaction website_url interaction).username = x) ∧
    (∀ x, interaction.bio = some x →
      (flattened_interaction website_url interaction).bio = x) ∧
    (∀ x, interaction.post_type = some x →
      (flattened_interaction website_url interaction).post_type = x) ∧
    (∀ x, interaction.timestamp = some x →
      (flattened_interaction website_url interaction).timestamp = x) ∧
    (∀ n, interaction.upvotes = some n →
      (flattened_interaction website_url interaction).upvotes = n) ∧
    (∀ xs, interaction.links = some xs →
      (flattened_interaction website_url interaction).links = String.intercalate ", " xs) ∧
    (interaction.links = some [] →
      (flattened_interaction website_url interaction).links = "") ∧
    (interaction.username = none →
      (flattened_interaction website_url interaction).username = "") ∧
    (interaction.bio = none →
      (flattened_interaction website_url interaction).bio = "") ∧
    (interaction.post_type = none →
      (flattened_interaction website_url interaction).post_type = "") ∧
    (interaction.timestamp = none →
      (flattened_interaction website_url interaction).timestamp = "") ∧
    (interaction.upvotes = none →
      (flattened_interaction website_url interaction).upvotes = 0) ∧
    (interaction.links = none →
      (flattened_interaction website_url interaction).links = "") ∧
    (flattened_interaction website_url interaction).website_url = website_url := by
  refine ⟨?_, ?_, ?_, ?_, ?_, ?_, ?_, ?_, ?_, ?_, ?_, ?_, ?_, rfl⟩ <;>
    first
      | (intro x hx; simp [flattened_interaction, hx]; try rfl)
      | (intro hx; simp [flattened_interaction, hx]; try rfl)

/-- C7 witness: a mapping with a present username and links and absent
other fields flattens to the carried values and the documented
defaults. -/
theorem flatten_field_defaults_witness :
    (flattened_interaction "https://quora.com/a"
        ⟨some "alice", none, none, none, none, some ["x", "y"]⟩).username = "alice" ∧
    (flattened_interaction "https://quora.com/a"
        ⟨some "alice", none, none, none, none, some ["x", "y"]⟩).links
      = String.intercalate ", " ["x", "y"] ∧
    (flattened_interaction "https://quora.com/a"
        ⟨some "alice", none, none, none, none, some ["x", "y"]⟩).upvotes = 0 ∧
    (flattened_interaction "https://quora.com/a"
        ⟨some "alice", none, none, none, none, some ["x", "y"]⟩).bio = "" :=
  ⟨(flatten_field_defaults "https://quora.com/a" _).1 "alice" rfl,
   (flatten_field_defaults "https://quora.com/a" _).2.2.2.2.2.1 ["x", "y"] rfl,
   (flatten_field_defaults "https://quora.com/a" _).2.2.2.2.2.2.2.2.2.2.2.1 rfl,
   (flatten_field_defaults "https://quora.com/a" _).2.2.2.2.2.2.2.2.1 rfl⟩

/-- C3: for every service behaviour, a non-200 status or a body without
a truthy success indicator makes search_for_urls return the empty list
(the function is total, so no branch raises), and a 200 status with a
truthy success indicator makes it return the url field of every result
item, in service order, with no deduplication and no URL validation. -/
theorem search_result_handling (service : String → SearchRequest → SearchResponse)
    (company_description firecrawl_api_key : String) (num_links : Nat) :
    (((service firecrawl_api_key (search_payload company_description num_links)).status_code ≠ 200 ∨
      (service firecrawl_api_key (search_payload company_description num_links)).body.success = false) →
        search_for_urls service company_description firecrawl_api_key num_links = []) ∧
    ((service firecrawl_api_key (search_payload company_description num_links)).status_code = 200 →
      (service firecrawl_api_key (search_payload company_description num_links)).body.success = true →
        search_for_urls service company_description firecrawl_api_key num_links
          = (service firecrawl_api_key (search_payload company_description num_links)).body.data.map
              SearchItem.url) := by
  constructor
  · rintro (h | h) <;> simp [search_for_urls, h]
  · intro h1 h2
    simp [search_for_urls, h1, h2]

/-- C3 witness: a 404 response yields no URLs, and a 200 success
response with two items yields both urls in order. -/
theorem search_result_handling_witness :
    search_for_urls (fun _ _ => ⟨404, ⟨true, [⟨"https://quora.com/a"⟩]⟩⟩) "video editing" "key" 3
        = [] ∧
    search_for_urls (fun _ _ => ⟨200, ⟨true, [⟨"https://quora.com/a"⟩, ⟨"https://quora.com/b"⟩]⟩⟩)
        "video editing" "key" 3
      = ((fun (_ : String) (_ : SearchRequest) =>
            (⟨200, ⟨true, [⟨"https://quora.com/a"⟩, ⟨"https://quora.com/b"⟩]⟩⟩ : SearchResponse))
          "key" (search_payload "video editing" 3)).body.data.map SearchItem.url :=
  ⟨(search_result_handling (fun _ _ => ⟨404, ⟨true, [⟨"https://quora.com/a"⟩]⟩⟩)
      "video editing" "key" 3).1 (Or.inl (by decide)),
   (search_result_handling
      (fun _ _ => ⟨200, ⟨true, [⟨"https://quora.com/a"⟩, ⟨"https://quora.com/b"⟩]⟩⟩)
      "video editing" "key" 3).2 rfl rfl⟩

/-- C4 counterexample: search_for_urls performs no client-side
truncation, so with num_links = 1 a success response carrying two items
makes it return two URLs, violating the claimed bound for that service
response. -/
theorem search_limit_counterexample :
    ¬ (search_for_urls
          (fun _ _ => ⟨200, ⟨true, [⟨"https://quora.com/a"⟩, ⟨"https://quora.com/b"⟩]⟩⟩)
          "video editing" "key" 1).length ≤ 1 := by decide

/-- C4 (amended): for every limit L in [1,15] the request sent to the
service carries limit L, and the function itself never truncates, so its
output is bounded by L exactly when the service honours the limit: for
every response whose success data has at most L items the function
returns at most L URLs, and its output is always a prefix of the
service-ordered URL list. -/
theorem search_limit_forwarded (service : String → SearchRequest → SearchResponse)
    (company_description firecrawl_api_key : String) (L : Nat)
    (h1 : 1 ≤ L) (h2 : L ≤ 15)
    (hresp : (service firecrawl_api_key (search_payload company_description L)).body.data.length
        ≤ L) :
    (search_payload company_description L).limit = L ∧
    (search_for_urls service company_description firecrawl_api_key L).length ≤ L ∧
    ∃ rest, search_for_urls service company_description firecrawl_api_key L ++ rest
        = (service firecrawl_api_key (search_payload company_description L)).body.data.map
            SearchItem.url := by
  refine ⟨rfl, ?_, ?_⟩
  · unfold search_for_urls
    dsimp only
    split_ifs with hs hok
    · simpa using hresp
    · simp
    · simp
  · unfold search_for_urls
    dsimp only
    split_ifs with hs hok
    · exact ⟨[], List.append_nil _⟩
    · exact ⟨_, List.nil_append _⟩
    · exact ⟨_, List.nil_append _⟩

/-- C4 witness: with L = 1 and a compliant service returning one item,
the payload carries limit 1, at most one URL is returned and the output
is a prefix of the service list. -/
theorem search_limit_forwarded_witness :
    (search_payload "video editing" 1).limit = 1 ∧
    (search_for_urls (fun _ _ => ⟨200, ⟨true, [⟨"https://quora.com/a"⟩]⟩⟩)
        "video editing" "key" 1).length ≤ 1 ∧
    ∃ rest, search_for_urls (fun _ _ => ⟨200, ⟨true, [⟨"https://quora.com/a"⟩]⟩⟩)
          "video editing" "key" 1 ++ rest
        = ((fun (_ : String) (_ : SearchRequest) =>
              (⟨200, ⟨true, [⟨"https://quora.com/a"⟩]⟩⟩ : SearchResponse))
            "key" (search_payload "video editing" 1)).body.data.map SearchItem.url :=
  search_limit_forwarded (fun _ _ => ⟨200, ⟨true, [⟨"https://quora.com/a"⟩]⟩⟩)
    "video editing" "key" 1 (by decide) (by decide) (by decide)

/-- C8: the extracted_data computation of the source equals the spec
strategy chain: strategy (a) on a present-and-truthy data field (with
one level of first-element unwrapping for lists), else strategy (b) on
the attribute bag, else strategy (c) on the mapping view, the first
applicable strategy winning and the empty dict closing the chain. -/
theorem response_unwrap_strategy_order (response : Response) :
    get_extracted_data response = spec_unwrap response := by
  obtain ⟨data, hdd, dd, hit, it⟩ := response
  cases data with
  | none =>
    simp only [get_extracted_data, spec_unwrap, strategy_data, strategy_attr_bag,
      strategy_mapping, attr_or_mapping, Option.orElse]
    cases hdd <;> cases hit <;> rfl
  | some d =>
    by_cases hd : d.truthy
    · cases d with
      | dict dd2 =>
        simp only [get_extracted_data, spec_unwrap, strategy_data, strategy_attr_bag,
          strategy_mapping, as_mapping, unwrap_first, hd, if_pos, Option.orElse]
        rfl
      | list xs =>
        cases xs with
        | nil => simp [PyVal.truthy] at hd
        | cons x rest =>
          cases x <;>
            simp [get_extracted_data, spec_unwrap, strategy_data, strategy_attr_bag,
              strategy_mapping, as_mapping, unwrap_first, hd, Option.orElse]
      | other t =>
        simp only [get_extracted_data, spec_unwrap, strategy_data, strategy_attr_bag,
          strategy_mapping, as_mapping, unwrap_first, hd, if_pos, Option.orElse]
        rfl
    · simp only [get_extracted_data, spec_unwrap, strategy_data, strategy_attr_bag,
        strategy_mapping, attr_or_mapping, hd, if_neg, Option.orElse]
      cases hdd <;> cases hit <;> simp [hd]
